import Mathlib

/-!
Shallow embedding of `src/main.js` (client-side UI glue for the Retail Q&A
page) and proofs about its handlers.

The DOM pieces this file touches are modelled by the record `Dom`:
* `question`     — the value of the textarea with id `question`, `none`
                   when no such element exists;
* `submitBtn`    — disabled flag and innerHTML of the element with id
                   `submitBtn`, `none` when absent;
* `spinnerDisplay` — the `style.display` of the element with id
                   `loadingSpinner`, `none` when absent;
* `container`    — the child list of the first element with class
                   `container`, `none` when absent;
* `answerText`   — the innerText of the node matched by
                   `.answer-content div.mt-2`, `none` when absent;
* `tempTextareas` — values of the transient copy textareas currently
                   appended to `document.body` by `copyAnswer`;
* `nextId`       — allocation counter giving each `createElement` node a
                   fresh identity (models JS object identity).

Handlers are functions `Dom → …`; besides the new state they return a
trace of the observable effects they perform (`Effect`), and fallible
handlers return `Except JsError …` (a JS `TypeError` is raised by
dereferencing a `null` element handle). Scheduled timers appear in the
trace as `Effect.scheduleTimeout delay cb`, and the timer callbacks
themselves are modelled as separate functions on `Dom`.
-/

/-- Errors a handler can throw (dereferencing a null DOM lookup). -/
inductive JsError where
  | typeError (msg : String)
  deriving DecidableEq, Repr

/-- The submit button's mutable state: `disabled` and `innerHTML`. -/
structure BtnState where
  disabled : Bool
  innerHTML : String
  deriving DecidableEq, Repr

/-- A DOM node created by `document.createElement` (an alert banner):
`nid` models JS object identity. -/
structure Node where
  nid : Nat
  className : String
  role : String
  innerHTML : String
  deriving DecidableEq, Repr

/-- The scheduled-timer callbacks occurring in `main.js`. -/
inductive TimerCb where
  | focusQuestion
  | removeAlert (nid : Nat)
  | redirectRoot
  deriving DecidableEq, Repr

/-- Observable effects a handler performs, in order. -/
inductive Effect where
  | preventDefault
  | alertCall (message ty : String)
  | consoleError (msg : String)
  | scrollIntoView (behavior block : String)
  | selectTemp
  | execCopyCommand
  | scheduleTimeout (delayMs : Nat) (cb : TimerCb)
  deriving DecidableEq, Repr

/-- The slice of the document `main.js` reads and writes. -/
structure Dom where
  question : Option String
  submitBtn : Option BtnState
  spinnerDisplay : Option String
  container : Option (List Node)
  answerText : Option String
  tempTextareas : List String
  nextId : Nat
  deriving DecidableEq, Repr

/-- The inner markup `showAlert` assigns to the banner (`alertDiv.innerHTML`),
with the message interpolated in the middle. -/
def alertInnerHTML (message : String) : String :=
  "<i class=\"fas fa-info-circle me-2\"></i> " ++ message ++
    " <button type=\"button\" class=\"btn-close\" data-bs-dismiss=\"alert\" aria-label=\"Close\"></button>"

/-- `showAlert(message, type)`: creates the banner element, and if the
`.container` element exists inserts it as first child and schedules the
5000 ms auto-dismiss timer. The `alertCall` effect records the invocation
itself. -/
def showAlert (message ty : String) (d : Dom) : Dom × List Effect :=
  let alertDiv : Node :=
    { nid := d.nextId
      className := "alert alert-" ++ ty ++ " alert-dismissible fade show"
      role := "alert"
      innerHTML := alertInnerHTML message }
  let d1 : Dom := { d with nextId := d.nextId + 1 }
  match d1.container with
  | some children =>
      ({ d1 with container := some (alertDiv :: children) },
       [Effect.alertCall message ty,
        Effect.scheduleTimeout 5000 (TimerCb.removeAlert alertDiv.nid)])
  | none => (d1, [Effect.alertCall message ty])

/-- The 5000 ms timer callback scheduled by `showAlert`: removes the banner
only if it still has a parent (`if (alertDiv && alertDiv.parentNode)`). -/
def alertDismissTimer (nid : Nat) (d : Dom) : Dom :=
  match d.container with
  | none => d
  | some children =>
      if children.any (fun n => n.nid == nid) then
        { d with container := some (children.eraseP (fun n => n.nid == nid)) }
      else d

/-- The innerHTML `showLoadingState` puts on the submit button. -/
def processingHTML : String :=
  "<i class=\"fas fa-spinner fa-spin me-2\"></i>Processing..."

/-- The innerHTML `hideLoadingState` restores on the submit button. -/
def askAssistantHTML : String :=
  "<i class=\"fas fa-paper-plane me-2\"></i>Ask AI Assistant"

/-- `showLoadingState()`: disables the submit button and swaps its label,
shows the spinner; each lookup is null-checked. -/
def showLoadingState (d : Dom) : Dom :=
  let d1 : Dom :=
    match d.submitBtn with
    | some _ => { d with submitBtn := some { disabled := true, innerHTML := processingHTML } }
    | none => d
  match d1.spinnerDisplay with
  | some _ => { d1 with spinnerDisplay := some "block" }
  | none => d1

/-- `hideLoadingState()`: re-enables the submit button, restores its label,
hides the spinner; each lookup is null-checked. -/
def hideLoadingState (d : Dom) : Dom :=
  let d1 : Dom :=
    match d.submitBtn with
    | some _ => { d with submitBtn := some { disabled := false, innerHTML := askAssistantHTML } }
    | none => d
  match d1.spinnerDisplay with
  | some _ => { d1 with spinnerDisplay := some "none" }
  | none => d1

/-- The code points `String.prototype.trim` strips: ASCII whitespace,
NBSP, BOM and the Unicode space separators. -/
def jsWhitespaceCodes : List Nat :=
  [9, 10, 11, 12, 13, 32, 0xa0, 0x1680, 0x2000, 0x2001, 0x2002, 0x2003,
   0x2004, 0x2005, 0x2006, 0x2007, 0x2008, 0x2009, 0x200a, 0x2028, 0x2029,
   0x202f, 0x205f, 0x3000, 0xfeff]

/-- Whether `String.prototype.trim` strips this character. -/
def isJsWhitespace (c : Char) : Bool := jsWhitespaceCodes.contains c.toNat

/-- Drops the longest prefix of characters satisfying `p`. -/
def dropLeading (p : Char → Bool) : List Char → List Char
  | [] => []
  | c :: cs => if p c then dropLeading p cs else c :: cs

/-- `String.prototype.trim`: strips leading and trailing whitespace. -/
def jsTrim (s : String) : String :=
  { data := (dropLeading isJsWhitespace
      (dropLeading isJsWhitespace s.data).reverse).reverse }

/-- `handleFormSubmit(event)`: reads
`document.getElementById('question').value.trim()` — this dereference is
NOT null-checked, so an absent `question` element throws a TypeError.
Blank question: `preventDefault`, warning alert, `return false`.
Otherwise: `showLoadingState()` and `return true` (default submission
proceeds). -/
def handleFormSubmit (d : Dom) : Except JsError (Dom × List Effect × Bool) :=
  match d.question with
  | none => .error (.typeError "Cannot read properties of null (reading value)")
  | some v =>
      if jsTrim v = "" then
        let r := showAlert "Please enter a question before submitting." "warning" d
        .ok (r.1, Effect.preventDefault :: r.2, false)
      else
        .ok (showLoadingState d, [], true)

/-- JS stringification of the value written by `el.value = attr` when the
attribute may be `null` (`getAttribute` returns `null` when absent, and
assigning `null` to a DOMString property stringifies it). -/
def attrToValue : Option String → String
  | some s => s
  | none => "null"

/-- The click handler attached to each `.example-question` button
(`setupEventListeners`, lines 28–42): writes the button's `data-question`
attribute into the `question` textarea (no null check on the lookup),
smooth-scrolls it into view, and schedules a 500 ms focus timer. -/
def exampleQuestionClick (dataQuestion : Option String) (d : Dom) :
    Except JsError (Dom × List Effect) :=
  match d.question with
  | none => .error (.typeError "Cannot set properties of null (setting value)")
  | some _ =>
      .ok ({ d with question := some (attrToValue dataQuestion) },
        [Effect.scrollIntoView "smooth" "center",
         Effect.scheduleTimeout 500 TimerCb.focusQuestion])

/-- The alert invocations (message, severity) recorded in a trace. -/
def alertCalls (effs : List Effect) : List (String × String) :=
  effs.filterMap fun e =>
    match e with
    | Effect.alertCall m t => some (m, t)
    | _ => none

/-- The scheduled timers recorded in a trace. -/
def scheduledTimers (effs : List Effect) : List (Nat × TimerCb) :=
  effs.filterMap fun e =>
    match e with
    | Effect.scheduleTimeout ms cb => some (ms, cb)
    | _ => none

/-- Message shown when the copy command succeeds. -/
def copySuccessMsg : String := "Answer copied to clipboard!"

/-- Message shown when the copy command throws. -/
def copyFailMsg : String :=
  "Failed to copy answer. Please try selecting and copying manually."

/-- `copyAnswer()`: if the answer node exists, appends a transient textarea
holding its text to `document.body`, selects it, issues
`document.execCommand('copy')` (modelled fallible via `copyThrows`), shows
a success or warning alert accordingly, then removes the transient
textarea (`removeChild` sits after the try/catch, so it runs on both
paths). If the answer node is absent the whole body is skipped. -/
def copyAnswer (copyThrows : Bool) (d : Dom) : Dom × List Effect :=
  match d.answerText with
  | none => (d, [])
  | some txt =>
      let d1 : Dom := { d with tempTextareas := d.tempTextareas ++ [txt] }
      let r :=
        if copyThrows then
          let ra := showAlert copyFailMsg "warning" d1
          (ra.1, Effect.consoleError "Failed to copy text: " :: ra.2)
        else
          showAlert copySuccessMsg "success" d1
      ({ r.1 with tempTextareas := r.1.tempTextareas.dropLast },
       Effect.selectTemp :: Effect.execCopyCommand :: r.2)

/-- `autoResizeTextarea()`: the sequence of values assigned to
`textarea.style.height` on one input event — first `'auto'`, then
`Math.min(scrollHeight, 200) + 'px'` (`scrollHeight` is the value read
after the reset). -/
def autoResizeTextarea (scrollHeight : Nat) : List String :=
  ["auto", toString (min scrollHeight 200) ++ "px"]

/-- A hexadecimal digit, for JSON control-character escapes. -/
def hexDigit (n : Nat) : String :=
  if n < 10 then toString n
  else if n = 10 then "a" else if n = 11 then "b" else if n = 12 then "c"
  else if n = 13 then "d" else if n = 14 then "e" else "f"

/-- `JSON.stringify` escaping of a single character. -/
def jsonEscapeChar (c : Char) : String :=
  if c = '"' then "\\\""
  else if c = '\\' then "\\\\"
  else if c = Char.ofNat 8 then "\\b"
  else if c = Char.ofNat 9 then "\\t"
  else if c = Char.ofNat 10 then "\\n"
  else if c = Char.ofNat 12 then "\\f"
  else if c = Char.ofNat 13 then "\\r"
  else if c.toNat < 32 then "\\u00" ++ hexDigit (c.toNat / 16) ++ hexDigit (c.toNat % 16)
  else String.singleton c

/-- `JSON.stringify` of a string value. -/
def jsonEscape (s : String) : String :=
  "\"" ++ String.join (s.data.map jsonEscapeChar) ++ "\""

/-- `JSON.stringify({ question: question })`. -/
def stringifyQuestionBody (q : String) : String :=
  "\x7b\"question\":" ++ jsonEscape q ++ "\x7d"

/-- A JSON value (what `response.json()` resolves to). -/
inductive Json where
  | jnull
  | jbool (b : Bool)
  | jnum (n : Int)
  | jstr (s : String)
  | jarr (xs : List Json)
  | jobj (fs : List (String × Json))

/-- A fetch request as issued by `askQuestionAPI`. -/
structure FetchRequest where
  url : String
  method : String
  contentType : String
  body : String
  deriving DecidableEq, Repr

/-- An HTTP response: its status, and the result of parsing its body as
JSON (`none` models a body `response.json()` rejects on). -/
structure HttpResponse where
  status : Nat
  jsonBody : Option Json

/-- `Response.ok`: status in the inclusive range 200–299. -/
def respOk (r : HttpResponse) : Bool :=
  200 ≤ r.status && r.status ≤ 299

/-- The request `askQuestionAPI(question)` issues. -/
def askRequest (q : String) : FetchRequest :=
  { url := "/api/ask", method := "POST", contentType := "application/json",
    body := stringifyQuestionBody q }

/-- `askQuestionAPI(question)`, with the network modelled as a function
`net` from requests to responses. Returns the request issued, the console
effects, and the promise outcome: rejects with
`HTTP error! status: <status>` on non-2xx, rejects when the 2xx body is
not JSON, resolves to the parsed body otherwise. The catch block logs and
rethrows, so every rejection also carries a `consoleError`. -/
def askQuestionAPI (net : FetchRequest → HttpResponse) (q : String) :
    FetchRequest × List Effect × Except String Json :=
  let req := askRequest q
  let resp := net req
  if respOk resp then
    match resp.jsonBody with
    | some j => (req, [], Except.ok j)
    | none =>
        (req, [Effect.consoleError "Error asking question:"],
         Except.error "SyntaxError: unexpected token in JSON")
  else
    (req, [Effect.consoleError "Error asking question:"],
     Except.error ("HTTP error! status: " ++ toString resp.status))

/-- The functions (and attached handlers / timer callbacks) defined in
`main.js`, for the call-graph analysis. -/
inductive Fn where
  | domContentLoadedHandler
  | initializeApp
  | setupEventListeners
  | exampleClickHandler
  | focusTimerCallback
  | handleFormSubmit
  | showLoadingState
  | hideLoadingState
  | autoResizeTextarea
  | copyAnswer
  | clearAnswer
  | redirectTimerCallback
  | showAlert
  | alertDismissCallback
  | initializeTooltips
  | askQuestionAPI
  | debounce
  | formatAnswer
  | globalErrorHandler
  | unhandledRejectionHandler
  deriving DecidableEq, Repr

/-- Direct call/attachment/scheduling edges of `main.js`, read off the
source: `g ∈ calls f` iff the body of `f` calls `g`, attaches `g` as a
listener, or schedules `g` as a timer callback (a conservative
over-approximation of "f's execution can lead to g running"). -/
def calls : Fn → List Fn
  | .domContentLoadedHandler => [.initializeApp]
  | .initializeApp => [.setupEventListeners, .initializeTooltips]
  | .setupEventListeners => [.handleFormSubmit, .exampleClickHandler, .autoResizeTextarea]
  | .exampleClickHandler => [.focusTimerCallback]
  | .focusTimerCallback => []
  | .handleFormSubmit => [.showAlert, .showLoadingState]
  | .showLoadingState => []
  | .hideLoadingState => []
  | .autoResizeTextarea => []
  | .copyAnswer => [.showAlert]
  | .clearAnswer => [.redirectTimerCallback]
  | .redirectTimerCallback => []
  | .showAlert => [.alertDismissCallback]
  | .alertDismissCallback => []
  | .initializeTooltips => []
  | .askQuestionAPI => []
  | .debounce => []
  | .formatAnswer => []
  | .globalErrorHandler => [.showAlert]
  | .unhandledRejectionHandler => [.showAlert]

/-- One step of the call graph. -/
def CallStep (f g : Fn) : Prop := g ∈ calls f

/-- Reflexive-transitive closure of the call graph: `Reachable f g` means
an execution starting in `f` can be running `g`. -/
def Reachable : Fn → Fn → Prop := Relation.ReflTransGen CallStep

/-- A concrete whitespace-only submission for C1. -/
def blankDom : Dom :=
  { question := some "   ",
    submitBtn := some { disabled := false, innerHTML := askAssistantHTML },
    spinnerDisplay := some "none", container := some [], answerText := none,
    tempTextareas := [], nextId := 0 }

/-- A concrete non-blank submission for C2. -/
def filledDom : Dom :=
  { question := some " What is the return policy? ",
    submitBtn := some { disabled := false, innerHTML := askAssistantHTML },
    spinnerDisplay := some "none", container := some [], answerText := none,
    tempTextareas := [], nextId := 0 }

/-- A document with no `question` element at all. -/
def noQuestionDom : Dom :=
  { question := none, submitBtn := none, spinnerDisplay := none,
    container := none, answerText := none, tempTextareas := [], nextId := 0 }

/-- A document carrying a rendered answer, for C6. -/
def answerDom : Dom :=
  { question := none, submitBtn := none, spinnerDisplay := none,
    container := some [], answerText := some "The answer",
    tempTextareas := [], nextId := 0 }

/-- A document with an empty container, for C7. -/
def containerDom : Dom :=
  { question := none, submitBtn := none, spinnerDisplay := none,
    container := some [], answerText := none, tempTextareas := [], nextId := 0 }

/-- A network stub answering every request with HTTP 500. -/
def net500 : FetchRequest → HttpResponse := fun _ => { status := 500, jsonBody := none }

/-- A network stub answering every request with HTTP 200 and the JSON
body from the spec's example. -/
def net200 : FetchRequest → HttpResponse :=
  fun _ => { status := 200, jsonBody := some (Json.jobj [("answer", Json.jstr "x")]) }

/-- A document with no container element, for C10. -/
def noContainerDom : Dom :=
  { question := some "q", submitBtn := none, spinnerDisplay := none,
    container := none, answerText := none, tempTextareas := [], nextId := 7 }

theorem showAlert_frame (m ty : String) (d : Dom) :
    (showAlert m ty d).1.question = d.question ∧
    (showAlert m ty d).1.submitBtn = d.submitBtn ∧
    (showAlert m ty d).1.spinnerDisplay = d.spinnerDisplay ∧
    (showAlert m ty d).1.answerText = d.answerText ∧
    (showAlert m ty d).1.tempTextareas = d.tempTextareas := by
  rcases h : d.container with _ | children <;> simp [showAlert, h]

theorem showAlert_alertCalls (m ty : String) (d : Dom) :
    alertCalls (showAlert m ty d).2 = [(m, ty)] := by
  rcases h : d.container with _ | children <;> simp [showAlert, h, alertCalls]

/-- C1: a submit event whose trimmed question text is empty cancels the
default submission (`preventDefault`, handler returns `false`), produces
exactly one alert invocation — a warning — and leaves the submit button
and spinner untouched (no loading state). -/
theorem handleFormSubmit_blank_spec (d : Dom) (v : String)
    (hq : d.question = some v) (ht : jsTrim v = "") :
    ∃ d' effs, handleFormSubmit d = .ok (d', effs, false) ∧
      Effect.preventDefault ∈ effs ∧
      alertCalls effs = [("Please enter a question before submitting.", "warning")] ∧
      d'.submitBtn = d.submitBtn ∧ d'.spinnerDisplay = d.spinnerDisplay := by
  refine ⟨(showAlert "Please enter a question before submitting." "warning" d).1,
    Effect.preventDefault :: (showAlert "Please enter a question before submitting." "warning" d).2,
    ?_, List.mem_cons_self _ _, ?_, ?_, ?_⟩
  · simp [handleFormSubmit, hq, ht]
  · simp [alertCalls]
    have := showAlert_alertCalls "Please enter a question before submitting." "warning" d
    simpa [alertCalls] using this
  · exact (showAlert_frame _ _ d).2.1
  · exact (showAlert_frame _ _ d).2.2.1

/-- C1 witness: the blank-submit theorem at a concrete whitespace-only
question. -/
theorem handleFormSubmit_blank_witness :
    ∃ d' effs, handleFormSubmit blankDom = .ok (d', effs, false) ∧
      Effect.preventDefault ∈ effs ∧
      alertCalls effs = [("Please enter a question before submitting.", "warning")] ∧
      d'.submitBtn = blankDom.submitBtn ∧ d'.spinnerDisplay = blankDom.spinnerDisplay :=
  handleFormSubmit_blank_spec blankDom "   " rfl (by decide)

/-- C2: a submit event with non-blank trimmed text does not cancel the
default submission (no `preventDefault` in the trace, handler returns
`true`), and before returning disables the submit button with the
`Processing...` label and shows the spinner, whenever those elements
exist. -/
theorem handleFormSubmit_nonblank_spec (d : Dom) (v : String)
    (hq : d.question = some v) (ht : jsTrim v ≠ "") :
    handleFormSubmit d = .ok (showLoadingState d, [], true) ∧
    Effect.preventDefault ∉ ([] : List Effect) ∧
    (d.submitBtn.isSome = true →
      (showLoadingState d).submitBtn =
        some { disabled := true, innerHTML := processingHTML }) ∧
    (d.submitBtn = none → (showLoadingState d).submitBtn = none) ∧
    (d.spinnerDisplay.isSome = true →
      (showLoadingState d).spinnerDisplay = some "block") ∧
    (d.spinnerDisplay = none → (showLoadingState d).spinnerDisplay = none) ∧
    (∃ pre, processingHTML = pre ++ "Processing...") := by
  refine ⟨by simp [handleFormSubmit, hq, ht], by simp, ?_, ?_, ?_, ?_,
    ⟨"<i class=\"fas fa-spinner fa-spin me-2\"></i>", by decide⟩⟩ <;>
    rcases hb : d.submitBtn with _ | b <;> rcases hs : d.spinnerDisplay with _ | s <;>
      simp [showLoadingState, hb, hs]

/-- C2 witness: the non-blank-submit theorem at a concrete question. -/
theorem handleFormSubmit_nonblank_witness :
    handleFormSubmit filledDom = .ok (showLoadingState filledDom, [], true) ∧
    Effect.preventDefault ∉ ([] : List Effect) ∧
    (filledDom.submitBtn.isSome = true →
      (showLoadingState filledDom).submitBtn =
        some { disabled := true, innerHTML := processingHTML }) ∧
    (filledDom.submitBtn = none → (showLoadingState filledDom).submitBtn = none) ∧
    (filledDom.spinnerDisplay.isSome = true →
      (showLoadingState filledDom).spinnerDisplay = some "block") ∧
    (filledDom.spinnerDisplay = none →
      (showLoadingState filledDom).spinnerDisplay = none) ∧
    (∃ pre, processingHTML = pre ++ "Processing...") :=
  handleFormSubmit_nonblank_spec filledDom " What is the return policy? " rfl (by decide)

/-- C3 counterexample: in the form-submit handler the lookup
`document.getElementById('question')` is dereferenced without a null
check, so with the `question` element absent the handler throws a
TypeError instead of silently skipping — refuting "every DOM element
lookup is null-checked before use ... never raises an error". -/
theorem handleFormSubmit_missing_question_cex :
    handleFormSubmit noQuestionDom =
      .error (JsError.typeError "Cannot read properties of null (reading value)") := rfl

/-- C3 amended: the lookups in `setupEventListeners` are null-checked, but
`handleFormSubmit` and the example-question click handler dereference the
`question` element unchecked: each of those two handlers throws a
TypeError exactly when that element is absent, and runs without error
when it is present. -/
theorem handler_error_iff_missing_question (d : Dom) (attr : Option String) :
    ((∃ e, handleFormSubmit d = .error e) ↔ d.question = none) ∧
    ((∃ e, exampleQuestionClick attr d = .error e) ↔ d.question = none) := by
  rcases h : d.question with _ | v
  · exact ⟨⟨fun _ => rfl,
      fun _ => ⟨JsError.typeError "Cannot read properties of null (reading value)",
        by simp [handleFormSubmit, h]⟩⟩,
      ⟨fun _ => rfl,
        fun _ => ⟨JsError.typeError "Cannot set properties of null (setting value)",
          by simp [exampleQuestionClick, h]⟩⟩⟩
  · constructor
    · constructor
      · rintro ⟨e, he⟩
        by_cases hv : jsTrim v = "" <;> simp [handleFormSubmit, h, hv] at he
      · intro hc; cases hc
    · constructor
      · rintro ⟨e, he⟩
        simp [exampleQuestionClick, h] at he
      · intro hc; cases hc

/-- C4: one input event assigns `'auto'` and then
`min(scrollHeight, 200) + 'px'` to the textarea height, and the numeric
value of that final height never exceeds 200. -/
theorem autoResizeTextarea_spec (h : Nat) :
    autoResizeTextarea h = ["auto", toString (min h 200) ++ "px"] ∧
    min h 200 ≤ 200 :=
  ⟨rfl, Nat.min_le_right h 200⟩

/-- C5: clicking an example-question button whose `data-question`
attribute holds `s` (with the textarea present) sets the textarea value to
exactly `s`, smooth-scrolls it into view, and schedules a 500 ms focus
timer. -/
theorem exampleQuestionClick_spec (d : Dom) (s : String)
    (hq : d.question.isSome = true) :
    exampleQuestionClick (some s) d =
      .ok ({ d with question := some s },
        [Effect.scrollIntoView "smooth" "center",
         Effect.scheduleTimeout 500 TimerCb.focusQuestion]) := by
  rcases h : d.question with _ | v
  · rw [h] at hq; cases hq
  · simp [exampleQuestionClick, h, attrToValue]

/-- C5 witness: the example-click theorem at the concrete attribute from
the spec. -/
theorem exampleQuestionClick_witness :
    exampleQuestionClick (some "What is the return policy?") blankDom =
      .ok ({ blankDom with question := some "What is the return policy?" },
        [Effect.scrollIntoView "smooth" "center",
         Effect.scheduleTimeout 500 TimerCb.focusQuestion]) :=
  exampleQuestionClick_spec blankDom "What is the return policy?" rfl

theorem dropLast_append_one {α : Type} (l : List α) (a : α) :
    (l ++ [a]).dropLast = l := by
  induction l with
  | nil => rfl
  | cons x xs ih =>
      cases xs <;> simp_all [List.dropLast]

/-- C6: when the answer node exists, `copyAnswer` removes the transient
off-screen input before returning on both the success and the failure
path of the copy command (the body's extra textareas are exactly as
before), and it shows a success alert when the command succeeds and a
warning alert when it throws. -/
theorem copyAnswer_spec (d : Dom) (txt : String) (copyThrows : Bool)
    (ha : d.answerText = some txt) :
    (copyAnswer copyThrows d).1.tempTextareas = d.tempTextareas ∧
    alertCalls (copyAnswer copyThrows d).2 =
      [if copyThrows then (copyFailMsg, "warning")
       else (copySuccessMsg, "success")] := by
  cases copyThrows <;> rcases hc : d.container with _ | ch <;>
    simp [copyAnswer, showAlert, alertCalls, ha, hc, dropLast_append_one]

/-- C6 witness: the copy theorem at a concrete answer, on both the
success and the failure path. -/
theorem copyAnswer_witness :
    ((copyAnswer false answerDom).1.tempTextareas = answerDom.tempTextareas ∧
     alertCalls (copyAnswer false answerDom).2 =
       [if false then (copyFailMsg, "warning")
        else (copySuccessMsg, "success")]) ∧
    ((copyAnswer true answerDom).1.tempTextareas = answerDom.tempTextareas ∧
     alertCalls (copyAnswer true answerDom).2 =
       [if true then (copyFailMsg, "warning")
        else (copySuccessMsg, "success")]) :=
  ⟨copyAnswer_spec answerDom "The answer" false rfl,
   copyAnswer_spec answerDom "The answer" true rfl⟩

/-- C7: when the `.container` element exists, `showAlert` inserts exactly
one banner — as first child, with the requested severity in its class —
and schedules one 5000 ms removal timer for it; that timer removes the
banner when it is still attached, and is a no-op on any document in which
the banner is no longer attached (a manually dismissed banner is not
removed twice). -/
theorem showAlert_container_spec (d : Dom) (children : List Node) (m ty : String)
    (hc : d.container = some children) :
    ∃ b : Node,
      b.nid = d.nextId ∧
      b.className = "alert alert-" ++ ty ++ " alert-dismissible fade show" ∧
      (showAlert m ty d).1.container = some (b :: children) ∧
      (showAlert m ty d).2 =
        [Effect.alertCall m ty,
         Effect.scheduleTimeout 5000 (TimerCb.removeAlert b.nid)] ∧
      alertDismissTimer b.nid (showAlert m ty d).1 =
        { (showAlert m ty d).1 with container := some children } ∧
      (∀ d2 : Dom, (∀ rest, d2.container = some rest → ∀ n ∈ rest, n.nid ≠ b.nid) →
        alertDismissTimer b.nid d2 = d2) := by
  refine ⟨{ nid := d.nextId,
            className := "alert alert-" ++ ty ++ " alert-dismissible fade show",
            role := "alert", innerHTML := alertInnerHTML m },
    rfl, rfl, ?_, ?_, ?_, ?_⟩
  · simp [showAlert, hc]
  · simp [showAlert, hc]
  · simp [showAlert, hc, alertDismissTimer]
  · intro d2 hno
    rcases h2 : d2.container with _ | rest
    · simp [alertDismissTimer, h2]
    · have hany : rest.any (fun n => n.nid == d.nextId) = false := by
        rw [List.any_eq_false]
        intro n hn
        simpa using hno rest h2 n hn
      simp [alertDismissTimer, h2, hany]

/-- C7 witness: the insertion theorem at the spec's concrete invocation
`("Copied!", "success")` on a present container. -/
theorem showAlert_container_witness :
    ∃ b : Node,
      b.nid = containerDom.nextId ∧
      b.className = "alert alert-" ++ "success" ++ " alert-dismissible fade show" ∧
      (showAlert "Copied!" "success" containerDom).1.container = some (b :: []) ∧
      (showAlert "Copied!" "success" containerDom).2 =
        [Effect.alertCall "Copied!" "success",
         Effect.scheduleTimeout 5000 (TimerCb.removeAlert b.nid)] ∧
      alertDismissTimer b.nid (showAlert "Copied!" "success" containerDom).1 =
        { (showAlert "Copied!" "success" containerDom).1 with container := some [] } ∧
      (∀ d2 : Dom, (∀ rest, d2.container = some rest → ∀ n ∈ rest, n.nid ≠ b.nid) →
        alertDismissTimer b.nid d2 = d2) :=
  showAlert_container_spec containerDom [] "Copied!" "success" rfl

/-- C8: `askQuestionAPI(question)` issues a POST to `/api/ask` whose body
is `JSON.stringify({question})`; on a non-2xx status the promise rejects
with `HTTP error! status: <status>` (the message contains the status
code), and on a 2xx status whose body parses as JSON it resolves to the
parsed value. -/
theorem askQuestionAPI_spec (net : FetchRequest → HttpResponse) (q : String) :
    (askQuestionAPI net q).1 = askRequest q ∧
    (askRequest q).url = "/api/ask" ∧
    (askRequest q).method = "POST" ∧
    (askRequest q).body = stringifyQuestionBody q ∧
    (respOk (net (askRequest q)) = false →
      (askQuestionAPI net q).2.2 =
        Except.error ("HTTP error! status: " ++ toString (net (askRequest q)).status) ∧
      ∃ pre post,
        "HTTP error! status: " ++ toString (net (askRequest q)).status =
          pre ++ toString (net (askRequest q)).status ++ post) ∧
    (respOk (net (askRequest q)) = true →
      ∀ j, (net (askRequest q)).jsonBody = some j →
        (askQuestionAPI net q).2.2 = Except.ok j) := by
  refine ⟨?_, rfl, rfl, rfl, ?_, ?_⟩
  · simp only [askQuestionAPI]
    rcases hok : respOk (net (askRequest q)) with _ | _
    · simp [hok]
    · rcases hj : (net (askRequest q)).jsonBody with _ | j <;> simp [hok, hj]
  · intro hok
    refine ⟨?_, "HTTP error! status: ", "", by simp⟩
    simp [askQuestionAPI, hok]
  · intro hok j hj
    simp [askQuestionAPI, hok, hj]

/-- C8 witness: the API theorem at the spec's two concrete endpoints —
HTTP 500 rejects with the status in the message, HTTP 200 with
`{"answer":"x"}` resolves to that parsed object. -/
theorem askQuestionAPI_witness :
    (askQuestionAPI net500 "hi").2.2 =
      Except.error ("HTTP error! status: " ++ toString (net500 (askRequest "hi")).status) ∧
    (askQuestionAPI net200 "hi").2.2 =
      Except.ok (Json.jobj [("answer", Json.jstr "x")]) :=
  ⟨((askQuestionAPI_spec net500 "hi").2.2.2.2.1 (by decide)).1,
   (askQuestionAPI_spec net200 "hi").2.2.2.2.2 (by decide)
     (Json.jobj [("answer", Json.jstr "x")]) rfl⟩

theorem hide_not_called (f : Fn) : Fn.hideLoadingState ∉ calls f := by
  cases f <;> decide

/-- C9: no function in the file has `hideLoadingState` among its direct
calls, attached listeners or scheduled callbacks, and hence along any
execution path of the call graph — starting from any handler, timer
callback or exported helper — no step ever reaches a call to
`hideLoadingState`: nothing in the file re-enables the submit button or
hides the spinner once `showLoadingState` has run. -/
theorem hideLoadingState_never_called :
    (∀ f : Fn, Fn.hideLoadingState ∉ calls f) ∧
    (∀ f g : Fn, Reachable f g → Fn.hideLoadingState ∉ calls g) :=
  ⟨hide_not_called, fun _ g _ => hide_not_called g⟩

/-- C9 witness: along the reflexive path at the form-submit handler, no
call to `hideLoadingState` occurs. -/
theorem hideLoadingState_never_called_witness :
    Fn.hideLoadingState ∉ calls Fn.handleFormSubmit :=
  hideLoadingState_never_called.2 Fn.handleFormSubmit Fn.handleFormSubmit
    Relation.ReflTransGen.refl

/-- C10: when no `.container` element exists, `showAlert` changes nothing
in the document — the only state change is the allocation counter for the
banner node that `createElement` built but never attached — inserts no
banner anywhere, and schedules no removal timer. -/
theorem showAlert_noContainer_spec (d : Dom) (m ty : String)
    (hc : d.container = none) :
    (showAlert m ty d).1 = { d with nextId := d.nextId + 1 } ∧
    (showAlert m ty d).1.container = none ∧
    (showAlert m ty d).2 = [Effect.alertCall m ty] ∧
    scheduledTimers (showAlert m ty d).2 = [] := by
  refine ⟨?_, ?_, ?_, ?_⟩ <;> simp [showAlert, hc, scheduledTimers]

/-- C10 witness: the no-container theorem at a concrete document and the
spec's `("Copied!", "success")` invocation. -/
theorem showAlert_noContainer_witness :
    (showAlert "Copied!" "success" noContainerDom).1 =
      { noContainerDom with nextId := noContainerDom.nextId + 1 } ∧
    (showAlert "Copied!" "success" noContainerDom).1.container = none ∧
    (showAlert "Copied!" "success" noContainerDom).2 =
      [Effect.alertCall "Copied!" "success"] ∧
    scheduledTimers (showAlert "Copied!" "success" noContainerDom).2 = [] :=
  showAlert_noContainer_spec noContainerDom "Copied!" "success" rfl
